import Mathlib

/-!
Verification development for the flavor-feast recipe screens.

This file shallowly embeds the state and handlers of
`src/screens/RecipeStepsScreen.tsx` (step-list editor and save workflow)
and `src/screens/FavoritesScreen.tsx` (favorite toggling) as pure Lean
definitions, and proves the specified properties about them.

Modelling conventions:
- Optional / possibly-`undefined` JavaScript values become `Option`.
- JavaScript truthiness tests on strings (`s && s.trim() !== \x27\x27`) are
  embedded as explicit boolean functions on `Option String`.
- The asynchronous persistence call is modelled by passing its outcome
  (`Except Thrown Unit`) as an explicit argument; the handler result
  records which external call was requested, whether the SAVING flag was
  entered, the final component state, and any blocking validation alert.
-/

namespace FlavorFeast

/-- Ingredient entries: only presence and count matter to this code. -/
abbrev Ingredient := String

/-- A step record (`Step` in `types.ts`): `text` is canonical, `description`
is a legacy alias also read during validation, `imageUrl` is optional. -/
structure Step where
  text : Option String := none
  description : Option String := none
  imageUrl : Option String := none
deriving Repr, DecidableEq

/-- The recipe draft fields used by `RecipeStepsScreen`. -/
structure Recipe where
  id : Option String := none
  createdByUser : Bool := false
  ingredients : Option (List Ingredient) := none
  steps : Option (List Step) := none
deriving Repr, DecidableEq

/-- Embeds `recipe?.steps || []`, the initial value of the `steps` state
(line 29 of RecipeStepsScreen.tsx).  An absent recipe or absent `steps`
field yields the empty list; a present array (empty or not, since arrays
are truthy in JavaScript) is used as-is. -/
def initSteps : Option Recipe → List Step
  | none => []
  | some r => r.steps.getD []

/-- The empty step appended by `addStep`: `{ text: \x27\x27, imageUrl: \x27\x27 }`. -/
def newStep : Step := { text := some "", imageUrl := some "" }

/-- Embeds `addStep` (lines 38-40): appends a fresh empty step record. -/
def addStep (steps : List Step) : List Step :=
  steps ++ [newStep]

/-- JavaScript `Array.prototype.filter` with the element index made
available to the predicate, starting the index count at `start`. -/
def filterIdxFrom (p : Nat → Step → Bool) : Nat → List Step → List Step
  | _, [] => []
  | i, s :: rest =>
      if p i s then s :: filterIdxFrom p (i + 1) rest
      else filterIdxFrom p (i + 1) rest

/-- Embeds `steps.filter((_, i) => ...)`: index-aware filter from index 0. -/
def filterIdx (p : Nat → Step → Bool) (l : List Step) : List Step :=
  filterIdxFrom p 0 l

/-- Embeds `removeStep` (lines 42-49): removes the entry at `index` only when the
list currently has strictly more than one element; otherwise leaves the
list unchanged and raises the "Debe tener al menos un paso" alert.  The
returned boolean records whether that minimum-one-step alert was shown. -/
def removeStep (steps : List Step) (index : Nat) : List Step × Bool :=
  if steps.length > 1 then
    (filterIdx (fun i _ => i != index) steps, false)
  else
    (steps, true)

/-- The field names `handleChange` may receive (`keyof Step`). -/
inductive StepField where
  | text
  | description
  | imageUrl
deriving Repr, DecidableEq

/-- Embeds `(updated[index] as any)[field] = value` on one step record. -/
def setField (f : StepField) (v : String) (s : Step) : Step :=
  match f with
  | .text => { s with text := some v }
  | .description => { s with description := some v }
  | .imageUrl => { s with imageUrl := some v }

/-- Replace the element at `index` by its image under `g`; out-of-range
indices leave the list unchanged (the UI only ever passes in-range
indices, per the contract). -/
def setAt : List Step → Nat → (Step → Step) → List Step
  | [], _, _ => []
  | s :: rest, 0, g => g s :: rest
  | s :: rest, i + 1, g => s :: setAt rest i g

/-- Embeds `handleChange` (lines 51-55): copies the sequence and overwrites one
field of the record at `index`. -/
def handleChange (steps : List Step) (index : Nat) (f : StepField)
    (v : String) : List Step :=
  setAt steps index (setField f v)

/-- One editor operation on the step sequence. -/
inductive EditorOp where
  | append
  | remove (i : Nat)
  | update (i : Nat) (f : StepField) (v : String)
deriving Repr, DecidableEq

/-- Apply one editor operation to the current step sequence. -/
def applyOp (l : List Step) : EditorOp → List Step
  | .append => addStep l
  | .remove i => (removeStep l i).1
  | .update i f v => handleChange l i f v

/-- Apply a sequence of editor operations, oldest first. -/
def applyOps (l : List Step) (ops : List EditorOp) : List Step :=
  ops.foldl applyOp l

/-! ## Save coordinator (handleSave, lines 57-102) -/

/-- JavaScript `String.prototype.trim`: drop whitespace from both ends.
(Embedded structurally over the character list so that it evaluates by
kernel reduction.) -/
def jsTrim (s : String) : String :=
  ⟨((s.data.dropWhile Char.isWhitespace).reverse.dropWhile
      Char.isWhitespace).reverse⟩

/-- JavaScript truthiness-plus-trim test `x && x.trim() !== \x27\x27` on a
possibly-absent string: `undefined` and the empty string are falsy, and a
string of only whitespace fails the trim test. -/
def strTruthyNonBlank : Option String → Bool
  | none => false
  | some s => s != "" && jsTrim s != ""

/-- Embeds `!recipe.ingredients || recipe.ingredients.length === 0` (line 58):
an absent ingredients array, or a present but empty one. -/
def noIngredients (recipe : Recipe) : Bool :=
  match recipe.ingredients with
  | none => true
  | some l => l.length == 0

/-- The step filter of lines 63-66: a step is kept when its `text`, or its
legacy `description`, is present and non-blank after trimming. -/
def isValidStep (s : Step) : Bool :=
  strTruthyNonBlank s.text || strTruthyNonBlank s.description

/-- Embeds `recipe.id && recipe.id.trim() !== \x27\x27 && recipe.createdByUser`
(line 82): the condition selecting the edit branch. -/
def editCondition (recipe : Recipe) : Bool :=
  strTruthyNonBlank recipe.id && recipe.createdByUser

/-- A value thrown by the external persistence call: either a JavaScript
`Error` carrying a message, or any non-`Error` value. -/
inductive Thrown where
  | error (message : String)
  | nonError
deriving Repr, DecidableEq

/-- Embeds `error instanceof Error ? error.message : \x27ERROR_GENERAL\x27`
(line 95). -/
def thrownMessage : Thrown → String
  | .error m => m
  | .nonError => "ERROR_GENERAL"

/-- Which external persistence operation `handleSave` invoked. -/
inductive PersistCall where
  | create (r : Recipe)
  | update (id : String) (r : Recipe)
deriving Repr, DecidableEq

/-- The modal type set by the save workflow (line 34). -/
inductive ModalType where
  | CREATE_SUCCESS
  | EDIT_SUCCESS
  | ERROR
deriving Repr, DecidableEq

/-- The component state touched by the save workflow (lines 30-35). -/
structure SaveState where
  saving : Bool := false
  showSuccessModal : Bool := false
  showErrorModal : Bool := false
  isEditing : Bool := false
  modalType : Option ModalType := none
  errorType : String := ""
deriving Repr, DecidableEq

/-- Everything observable about one invocation of `handleSave`: the
persistence call requested (if any), whether `setSaving(true)` ran, the
state after the handler (including the `finally` cleanup), and the
blocking validation alert (if any). -/
structure SaveOutcome where
  call : Option PersistCall
  enteredSaving : Bool
  state : SaveState
  validationAlert : Option String
deriving Repr, DecidableEq

/-- Embeds `handleSave` (lines 57-102).  The outcome of the awaited external call
(`editRecipe` / `addRecipe`) is passed in as `persist`; it is only
consulted on the paths that actually reach the external call. -/
def handleSave (recipe : Recipe) (steps : List Step) (st : SaveState)
    (persist : Except Thrown Unit) : SaveOutcome :=
  if noIngredients recipe then
    { call := none, enteredSaving := false, state := st,
      validationAlert := some "Debe ingresar al menos un ingrediente." }
  else
    let validSteps := steps.filter isValidStep
    if validSteps.length = 0 then
      { call := none, enteredSaving := false, state := st,
        validationAlert := some "Debe ingresar al menos un paso." }
    else
      let st1 : SaveState := { st with saving := true }
      let completeRecipe : Recipe := { recipe with steps := some validSteps }
      if editCondition recipe then
        match persist with
        | .ok _ =>
            { call := some (.update (recipe.id.getD "") completeRecipe),
              enteredSaving := true,
              state := { st1 with
                isEditing := true, modalType := some .EDIT_SUCCESS,
                showSuccessModal := true, saving := false },
              validationAlert := none }
        | .error e =>
            { call := some (.update (recipe.id.getD "") completeRecipe),
              enteredSaving := true,
              state := { st1 with
                errorType := thrownMessage e, modalType := some .ERROR,
                showErrorModal := true, saving := false },
              validationAlert := none }
      else
        match persist with
        | .ok _ =>
            { call := some (.create completeRecipe),
              enteredSaving := true,
              state := { st1 with
                modalType := some .CREATE_SUCCESS,
                showSuccessModal := true, saving := false },
              validationAlert := none }
        | .error e =>
            { call := some (.create completeRecipe),
              enteredSaving := true,
              state := { st1 with
                errorType := thrownMessage e, modalType := some .ERROR,
                showErrorModal := true, saving := false },
              validationAlert := none }

/-- The save button (lines 217-225) carries `disabled={saving}`, so a
press while `saving` is true never reaches `handleSave` at all. -/
def saveButtonPress (recipe : Recipe) (steps : List Step) (st : SaveState)
    (persist : Except Thrown Unit) : SaveOutcome :=
  if st.saving then
    { call := none, enteredSaving := false, state := st,
      validationAlert := none }
  else
    handleSave recipe steps st persist

/-- The local validation failures of the spec, read off the blocking
alert message an outcome carries. -/
inductive ValidationError where
  | NO_INGREDIENTS
  | NO_VALID_STEPS
deriving Repr, DecidableEq

/-- Which local validation failure (if any) an outcome surfaced. -/
def validationFailure (o : SaveOutcome) : Option ValidationError :=
  match o.validationAlert with
  | some m =>
      if m = "Debe ingresar al menos un ingrediente." then
        some .NO_INGREDIENTS
      else if m = "Debe ingresar al menos un paso." then
        some .NO_VALID_STEPS
      else none
  | none => none

/-- The classification kinds of the error-code lookup in
`getErrorMessage` (lines 118-146). -/
inductive ErrorKind where
  | IMAGE_INVALID
  | INGREDIENT_INVALID
  | STEP_INVALID
  | VALIDATION_ERROR
  | GENERAL_ERROR
deriving Repr, DecidableEq

/-- The branch of the `getErrorMessage` switch selected by an error
identifier string. -/
def classifyError (errorType : String) : ErrorKind :=
  if errorType = "IMAGEN_INVALIDA" then .IMAGE_INVALID
  else if errorType = "INGREDIENTE_INVALIDO" then .INGREDIENT_INVALID
  else if errorType = "PASO_INVALIDO" then .STEP_INVALID
  else if errorType = "ERROR_VALIDACION" then .VALIDATION_ERROR
  else .GENERAL_ERROR

/-- The user-facing title and message of the error modal. -/
structure ErrorDisplay where
  title : String
  message : String
deriving Repr, DecidableEq

/-- Embeds `getErrorMessage` (lines 118-146): the switch over `errorType`. -/
def getErrorMessage (errorType : String) : ErrorDisplay :=
  if errorType = "IMAGEN_INVALIDA" then
    { title := "¡Error en la imagen!",
      message := "La URL de la imagen no es válida. Por favor, verifica que sea una URL correcta de una imagen." }
  else if errorType = "INGREDIENTE_INVALIDO" then
    { title := "¡Error en los ingredientes!",
      message := "Hay un problema con los ingredientes seleccionados. Verifica que sean válidos." }
  else if errorType = "PASO_INVALIDO" then
    { title := "¡Error en los pasos!",
      message := "Hay un problema con los pasos de la receta. Verifica que estén completos." }
  else if errorType = "ERROR_VALIDACION" then
    { title := "¡Error de validación!",
      message := "Los datos ingresados no son válidos. Por favor, revisa todos los campos." }
  else
    { title := "¡Error al guardar la receta!",
      message := "No se pudo guardar la receta. Por favor, verifica tu conexión a internet e inténtalo de nuevo." }

/-! ## Favorites screen (FavoritesScreen.tsx) -/

/-- The authenticated-user value from the user context; `id` may itself
be absent on a malformed session object. -/
structure User where
  id : Option String := none
deriving Repr, DecidableEq

/-- Embeds `!user?.id` (line 61), negated: the user object is present and its
`id` is truthy (a non-empty string). -/
def userAuthenticated : Option User → Bool
  | none => false
  | some u =>
      match u.id with
      | none => false
      | some s => s != ""

/-- The result object of the external `toggleFavorite` mutator. -/
structure ToggleResult where
  success : Bool
  message : Option String := none
deriving Repr, DecidableEq

/-- Everything observable about one `handleFavoritePress` invocation. -/
structure FavOutcome where
  toggleCalled : Bool
  loginPromptRequested : Bool
  errorAlert : Option String
deriving Repr, DecidableEq

/-- Embeds `handleFavoritePress` (lines 59-72): refuses with a login prompt when
no authenticated user is present; otherwise delegates to the external
toggle mutator and raises an error alert only on
`!result.success && result.message`. -/
def handleFavoritePress (user : Option User) (result : ToggleResult) :
    FavOutcome :=
  if !userAuthenticated user then
    { toggleCalled := false, loginPromptRequested := true,
      errorAlert := none }
  else
    { toggleCalled := true, loginPromptRequested := false,
      errorAlert :=
        match result.message with
        | some m => if !result.success && m != "" then some m else none
        | none => none }

/-! ## Helper lemmas -/

theorem filterIdxFrom_ne_all (m : Nat) :
    ∀ (l : List Step) (j : Nat), m < j →
      filterIdxFrom (fun i _ => i != m) j l = l := by
  intro l
  induction l with
  | nil => intro j _; rfl
  | cons s rest ih =>
      intro j hj
      have hp : (j != m) = true := by simp; omega
      simp only [filterIdxFrom, hp, if_true]
      rw [ih (j + 1) (by omega)]

theorem filterIdxFrom_ne_eq (m : Nat) :
    ∀ (l : List Step) (j : Nat), j ≤ m →
      filterIdxFrom (fun i _ => i != m) j l =
        l.take (m - j) ++ l.drop (m - j + 1) := by
  intro l
  induction l with
  | nil => intro j _; simp [filterIdxFrom]
  | cons s rest ih =>
      intro j hj
      rcases Nat.eq_or_lt_of_le hj with heq | hlt
      · subst heq
        have hp : (j != j) = false := by simp
        simp only [filterIdxFrom, hp, if_false]
        rw [filterIdxFrom_ne_all j rest (j + 1) (by omega)]
        simp
      · have hp : (j != m) = true := by simp; omega
        simp only [filterIdxFrom, hp, if_true]
        rw [ih (j + 1) (by omega)]
        have h1 : m - j = (m - (j + 1)) + 1 := by omega
        rw [h1]
        simp [List.take_succ_cons, List.drop_succ_cons]

theorem filterIdx_remove (l : List Step) (m : Nat) :
    filterIdx (fun i _ => i != m) l = l.take m ++ l.drop (m + 1) := by
  have h := filterIdxFrom_ne_eq m l 0 (Nat.zero_le m)
  simpa [filterIdx] using h

theorem removeStep_fst_eq (l : List Step) (i : Nat) (h : l.length > 1) :
    (removeStep l i).1 = l.take i ++ l.drop (i + 1) := by
  unfold removeStep
  rw [if_pos h]
  exact filterIdx_remove l i

theorem removeStep_stay (l : List Step) (i : Nat) (h : ¬ l.length > 1) :
    removeStep l i = (l, true) := by
  unfold removeStep
  rw [if_neg h]

theorem removeStep_fst_ne_nil (l : List Step) (i : Nat) (h : l ≠ []) :
    (removeStep l i).1 ≠ [] := by
  by_cases hl : l.length > 1
  · rw [removeStep_fst_eq l i hl]
    intro hnil
    have hlen := congrArg List.length hnil
    rw [List.length_append, List.length_take, List.length_drop] at hlen
    simp only [List.length_nil] at hlen
    omega
  · rw [removeStep_stay l i hl]
    exact h

theorem setAt_length : ∀ (l : List Step) (i : Nat) (g : Step → Step),
    (setAt l i g).length = l.length := by
  intro l
  induction l with
  | nil => intro i g; rfl
  | cons s rest ih =>
      intro i g
      cases i with
      | zero => rfl
      | succ i => simp [setAt, ih]

theorem applyOp_ne_nil (l : List Step) (op : EditorOp) (h : l ≠ []) :
    applyOp l op ≠ [] := by
  cases op with
  | append => simp [applyOp, addStep]
  | remove i => exact removeStep_fst_ne_nil l i h
  | update i f v =>
      intro hnil
      have hlen := congrArg List.length hnil
      simp [applyOp, handleChange, setAt_length] at hlen
      exact h hlen

theorem applyOps_ne_nil (ops : List EditorOp) :
    ∀ l : List Step, l ≠ [] → applyOps l ops ≠ [] := by
  induction ops with
  | nil => intro l h; exact h
  | cons op ops ih =>
      intro l h
      have hstep : applyOps l (op :: ops) = applyOps (applyOp l op) ops := rfl
      rw [hstep]
      exact ih _ (applyOp_ne_nil l op h)

theorem strTruthyNonBlank_iff (o : Option String) :
    strTruthyNonBlank o = true ↔ jsTrim (o.getD "") ≠ "" := by
  cases o with
  | none =>
      simp only [strTruthyNonBlank, Option.getD]
      constructor
      · intro h; exact absurd h (by simp)
      · intro h; exact absurd rfl h
  | some t =>
      simp only [strTruthyNonBlank, Option.getD, Bool.and_eq_true, bne_iff_ne,
        ne_eq]
      constructor
      · rintro ⟨_, h2⟩; exact h2
      · intro h
        refine ⟨?_, h⟩
        intro he
        subst he
        exact h rfl

theorem strTruthyNonBlank_iff_exists (o : Option String) :
    strTruthyNonBlank o = true ↔ ∃ s, o = some s ∧ jsTrim s ≠ "" := by
  cases o with
  | none => simp [strTruthyNonBlank]
  | some t =>
      rw [strTruthyNonBlank_iff]
      simp

theorem isValidStep_iff (s : Step) :
    isValidStep s = true ↔
      (jsTrim (s.text.getD "") ≠ "" ∨ jsTrim (s.description.getD "") ≠ "") := by
  simp [isValidStep, Bool.or_eq_true, strTruthyNonBlank_iff]

/-- A concrete incoming payload carrying no steps. -/
def steplessRecipe : Recipe :=
  { id := none, createdByUser := false, ingredients := none, steps := none }

/-- A concrete incoming payload carrying one step. -/
def oneStepRecipe : Recipe :=
  { id := none, createdByUser := false, ingredients := none,
    steps := some [{ text := some "mix" }] }

/-! ## Claim theorems -/

/-- Claim C7: on a one-element sequence `removeStep i` is a no-op that
leaves the sequence (hence its length) unchanged and reports the
minimum-one-step-required condition; on a sequence of length `n > 1`
with `i < n` it yields the sequence of length `n - 1` consisting of the
remaining elements in their original relative order (the prefix before
`i` followed by the suffix after `i`). -/
theorem claim_C7_removeStep (l : List Step) (i : Nat) :
    (l.length = 1 → removeStep l i = (l, true)) ∧
    (l.length > 1 → i < l.length →
      (removeStep l i).1 = l.take i ++ l.drop (i + 1) ∧
      (removeStep l i).1.length = l.length - 1 ∧
      (removeStep l i).2 = false) := by
  constructor
  · intro h1
    exact removeStep_stay l i (by omega)
  · intro h1 h2
    refine ⟨removeStep_fst_eq l i h1, ?_, ?_⟩
    · rw [removeStep_fst_eq l i h1]
      rw [List.length_append, List.length_take, List.length_drop]
      omega
    · unfold removeStep
      rw [if_pos h1]

/-- Witness for C7 at the concrete three-step sequence and index 1. -/
theorem claim_C7_removeStep_witness :
    (removeStep [{ text := some "a" }, { text := some "b" },
        { text := some "c" }] 1).1 =
      [{ text := some "a" }, { text := some "c" }] ∧
    (removeStep [{ text := some "a" }, { text := some "b" },
        { text := some "c" }] 1).1.length = 2 ∧
    (removeStep [{ text := some "a" }, { text := some "b" },
        { text := some "c" }] 1).2 = false := by
  have h := (claim_C7_removeStep [{ text := some "a" }, { text := some "b" },
    { text := some "c" }] 1).2 (by decide) (by decide)
  obtain ⟨h1, h2, h3⟩ := h
  refine ⟨?_, ?_, h3⟩
  · rw [h1]; rfl
  · simpa using h2

/-- Claim C8: `addStep` appends exactly one new step record with blank
text and blank image URL at the end, leaving the original elements
unchanged and in order, and increases the length by exactly one. -/
theorem claim_C8_addStep (l : List Step) :
    addStep l = l ++ [newStep] ∧
    (addStep l).length = l.length + 1 ∧
    newStep.text = some "" ∧ newStep.imageUrl = some "" ∧
    (addStep l).take l.length = l ∧
    (addStep l).getLast? = some newStep := by
  refine ⟨rfl, by simp [addStep], rfl, rfl, ?_, ?_⟩
  · exact List.take_left l [newStep]
  · show (l ++ [newStep]).getLast? = some newStep
    exact List.getLast?_concat l

/-- Claim C10: the empty step sequence is reachable (the editor
initializes from the incoming payload, defaulting to the empty list when
the payload carries no steps), and on it `removeStep i` takes the
rejection branch for every index: the sequence is left empty, no
out-of-range removal is attempted, and the minimum-one-step alert is
raised. -/
theorem claim_C10_removeStep_empty :
    (∀ r : Recipe, r.steps = none → initSteps (some r) = []) ∧
    (∀ i : Nat, removeStep ([] : List Step) i = ([], true)) := by
  constructor
  · intro r h
    simp [initSteps, h]
  · intro i
    rfl

/-- Witness for C10 at a concrete step-less recipe and index 5. -/
theorem claim_C10_removeStep_empty_witness :
    initSteps (some steplessRecipe) = [] ∧
    removeStep ([] : List Step) 5 = ([], true) :=
  ⟨claim_C10_removeStep_empty.1 _ rfl, claim_C10_removeStep_empty.2 5⟩

/-- Claim C4 as stated is false: entering the editor with a payload that
carries no steps constructs the empty step sequence, a reachable editor
state with fewer than one element. -/
theorem claim_C4_counterexample :
    ¬ (∀ (r : Option Recipe) (ops : List EditorOp),
        1 ≤ (applyOps (initSteps r) ops).length) := by
  intro h
  have h0 := h (some steplessRecipe) []
  simp [applyOps, initSteps, steplessRecipe] at h0

/-- Claim C4 (amended): whenever the step sequence constructed on entry
is non-empty, every reachable editor state — after any sequence of
append, remove and field-update operations — keeps at least one element;
only a payload yielding an initially empty sequence escapes the floor. -/
theorem claim_C4_steps_floor (r : Option Recipe) (ops : List EditorOp)
    (h : 1 ≤ (initSteps r).length) :
    1 ≤ (applyOps (initSteps r) ops).length := by
  have hne : initSteps r ≠ [] := by
    intro hnil
    rw [hnil] at h
    simp at h
  exact List.length_pos.mpr (applyOps_ne_nil ops (initSteps r) hne)

/-- Witness for the amended C4 at a concrete one-step payload and a
concrete operation sequence exercising all three operations. -/
theorem claim_C4_steps_floor_witness :
    1 ≤ (applyOps (initSteps (some oneStepRecipe))
      [EditorOp.append, EditorOp.update 0 StepField.text "stir",
       EditorOp.remove 1]).length :=
  claim_C4_steps_floor _ _ (by decide)

/-- A concrete draft with one ingredient and no identity. -/
def ingRecipe : Recipe :=
  { id := none, createdByUser := false, ingredients := some ["tomate"],
    steps := none }

/-- A concrete user-owned draft with an identity and one ingredient. -/
def ownedRecipe : Recipe :=
  { id := some "r1", createdByUser := true, ingredients := some ["tomate"],
    steps := none }

/-- Claim C1: for a draft passing local validation, when the identity is
present and non-blank and the draft is owned by the current user,
`handleSave` requests the external update operation with the identity
and the completed draft and a successful call yields `EDIT_SUCCESS`; in
every other case — in particular a draft lacking an identity even when
owned by the current user — it requests the external create operation
with the completed draft and a successful call yields `CREATE_SUCCESS`. -/
theorem claim_C1_create_vs_edit (recipe : Recipe) (steps : List Step)
    (st : SaveState)
    (hing : noIngredients recipe = false)
    (hsteps : (steps.filter isValidStep).length ≠ 0) :
    (editCondition recipe = true →
      (handleSave recipe steps st (.ok ())).call =
        some (.update (recipe.id.getD "")
          { recipe with steps := some (steps.filter isValidStep) }) ∧
      (handleSave recipe steps st (.ok ())).state.modalType =
        some .EDIT_SUCCESS ∧
      (handleSave recipe steps st (.ok ())).state.showSuccessModal = true) ∧
    (editCondition recipe = false →
      (handleSave recipe steps st (.ok ())).call =
        some (.create
          { recipe with steps := some (steps.filter isValidStep) }) ∧
      (handleSave recipe steps st (.ok ())).state.modalType =
        some .CREATE_SUCCESS ∧
      (handleSave recipe steps st (.ok ())).state.showSuccessModal = true) ∧
    (recipe.id = none →
      (handleSave recipe steps st (.ok ())).call =
        some (.create
          { recipe with steps := some (steps.filter isValidStep) }) ∧
      (handleSave recipe steps st (.ok ())).state.modalType =
        some .CREATE_SUCCESS) ∧
    (editCondition recipe = true ↔
      ((∃ s, recipe.id = some s ∧ jsTrim s ≠ "") ∧
        recipe.createdByUser = true)) := by
  have hcreate : editCondition recipe = false →
      (handleSave recipe steps st (.ok ())).call =
        some (.create
          { recipe with steps := some (steps.filter isValidStep) }) ∧
      (handleSave recipe steps st (.ok ())).state.modalType =
        some .CREATE_SUCCESS ∧
      (handleSave recipe steps st (.ok ())).state.showSuccessModal = true := by
    intro hedit
    simp [handleSave, hing, hsteps, hedit]
  refine ⟨?_, hcreate, ?_, ?_⟩
  · intro hedit
    simp [handleSave, hing, hsteps, hedit]
  · intro hid
    have hedit : editCondition recipe = false := by
      simp [editCondition, strTruthyNonBlank, hid]
    exact ⟨(hcreate hedit).1, (hcreate hedit).2.1⟩
  · rw [editCondition, Bool.and_eq_true, strTruthyNonBlank_iff_exists]

/-- Witness for C1: an owned draft with identity `r1` and one valid step
goes through the update branch with `EDIT_SUCCESS`. -/
theorem claim_C1_create_vs_edit_witness :
    (handleSave ownedRecipe [{ text := some "mix" }] {} (.ok ())).call =
      some (.update "r1"
        { ownedRecipe with steps := some [{ text := some "mix" }] }) ∧
    (handleSave ownedRecipe [{ text := some "mix" }] {} (.ok ())).state.modalType =
      some .EDIT_SUCCESS ∧
    (handleSave ownedRecipe [{ text := some "mix" }] {} (.ok ())).state.showSuccessModal =
      true := by
  have h := (claim_C1_create_vs_edit ownedRecipe [{ text := some "mix" }] {}
    (by decide) (by decide)).1 (by decide)
  obtain ⟨h1, h2, h3⟩ := h
  refine ⟨?_, h2, h3⟩
  rw [h1]
  rfl

/-- Claim C2: a draft whose ingredients are absent or empty fails local
validation with the no-ingredients alert: no persistence call is
requested, the SAVING flag is never entered, and the component state is
returned unchanged. -/
theorem claim_C2_no_ingredients (recipe : Recipe) (steps : List Step)
    (st : SaveState) (persist : Except Thrown Unit)
    (h : recipe.ingredients = none ∨ recipe.ingredients = some []) :
    handleSave recipe steps st persist =
      { call := none, enteredSaving := false, state := st,
        validationAlert := some "Debe ingresar al menos un ingrediente." } ∧
    validationFailure (handleSave recipe steps st persist) =
      some .NO_INGREDIENTS := by
  have hno : noIngredients recipe = true := by
    rcases h with h | h <;> simp [noIngredients, h]
  have h1 : handleSave recipe steps st persist =
      { call := none, enteredSaving := false, state := st,
        validationAlert := some "Debe ingresar al menos un ingrediente." } := by
    simp [handleSave, hno]
  refine ⟨h1, ?_⟩
  rw [h1]
  rfl

/-- Witness for C2 at a concrete ingredient-less draft. -/
theorem claim_C2_no_ingredients_witness :
    handleSave steplessRecipe [] {} (.ok ()) =
      { call := none, enteredSaving := false, state := {},
        validationAlert := some "Debe ingresar al menos un ingrediente." } ∧
    validationFailure (handleSave steplessRecipe [] {} (.ok ())) =
      some .NO_INGREDIENTS :=
  claim_C2_no_ingredients steplessRecipe [] {} (.ok ()) (Or.inl rfl)

/-- Claim C3: with non-empty ingredients, a draft in which every step is
blank (text and legacy description both blank after trimming) fails
local validation with the no-valid-steps alert, requesting no
persistence call and leaving the state unchanged; conversely a step
counts as valid exactly when its trimmed text or trimmed legacy
description is non-blank. -/
theorem claim_C3_no_valid_steps (recipe : Recipe) (steps : List Step)
    (st : SaveState) (persist : Except Thrown Unit)
    (hing : noIngredients recipe = false)
    (hblank : ∀ s ∈ steps, jsTrim (s.text.getD "") = "" ∧
      jsTrim (s.description.getD "") = "") :
    (handleSave recipe steps st persist =
      { call := none, enteredSaving := false, state := st,
        validationAlert := some "Debe ingresar al menos un paso." } ∧
     validationFailure (handleSave recipe steps st persist) =
       some .NO_VALID_STEPS) ∧
    (∀ s : Step, isValidStep s = true ↔
      (jsTrim (s.text.getD "") ≠ "" ∨ jsTrim (s.description.getD "") ≠ "")) := by
  have hfilter : steps.filter isValidStep = [] := by
    rw [List.filter_eq_nil_iff]
    intro s hs hvalid
    rcases (isValidStep_iff s).mp hvalid with hv | hv
    · exact hv (hblank s hs).1
    · exact hv (hblank s hs).2
  have h1 : handleSave recipe steps st persist =
      { call := none, enteredSaving := false, state := st,
        validationAlert := some "Debe ingresar al menos un paso." } := by
    simp [handleSave, hing, hfilter]
  exact ⟨⟨h1, by rw [h1]; rfl⟩, isValidStep_iff⟩

/-- Witness for C3: one whitespace-only text step and one empty-string
legacy description step are both filtered out. -/
theorem claim_C3_no_valid_steps_witness :
    handleSave ingRecipe
      [{ text := some "   " }, { description := some "" }] {} (.ok ()) =
      { call := none, enteredSaving := false, state := {},
        validationAlert := some "Debe ingresar al menos un paso." } ∧
    validationFailure (handleSave ingRecipe
      [{ text := some "   " }, { description := some "" }] {} (.ok ())) =
      some .NO_VALID_STEPS :=
  (claim_C3_no_valid_steps ingRecipe
    [{ text := some "   " }, { description := some "" }] {} (.ok ())
    (by decide) (by decide)).1

/-- Claim C5: the save trigger carries `disabled={saving}`, so a press
issued while the SAVING flag is set is a no-op: no second persistence
call is requested and the state is unchanged. -/
theorem claim_C5_saving_reentrancy (recipe : Recipe) (steps : List Step)
    (st : SaveState) (persist : Except Thrown Unit)
    (h : st.saving = true) :
    saveButtonPress recipe steps st persist =
      { call := none, enteredSaving := false, state := st,
        validationAlert := none } := by
  simp [saveButtonPress, h]

/-- Witness for C5 at a concrete SAVING state. -/
theorem claim_C5_saving_reentrancy_witness :
    saveButtonPress ingRecipe [] { saving := true } (.ok ()) =
      { call := none, enteredSaving := false, state := { saving := true },
        validationAlert := none } :=
  claim_C5_saving_reentrancy ingRecipe [] { saving := true } (.ok ()) rfl

/-- Claim C6: for a draft passing local validation, a failure raised by
the external persistence call is caught: the result state carries
`ERROR` with the thrown error message (`ERROR_GENERAL` for non-error
values), the error modal is shown, and the SAVING flag ends cleared;
the flag is cleared after every completed attempt, success or failure;
and the stored identifier is classified by `getErrorMessage` into
exactly one of the four recognized kinds, every unrecognized identifier
falling to the general default. -/
theorem claim_C6_error_classification (recipe : Recipe) (steps : List Step)
    (st : SaveState) (e : Thrown)
    (hing : noIngredients recipe = false)
    (hsteps : (steps.filter isValidStep).length ≠ 0) :
    ((handleSave recipe steps st (.error e)).call.isSome = true ∧
     (handleSave recipe steps st (.error e)).state.modalType = some .ERROR ∧
     (handleSave recipe steps st (.error e)).state.showErrorModal = true ∧
     (handleSave recipe steps st (.error e)).state.errorType =
       thrownMessage e ∧
     (handleSave recipe steps st (.error e)).state.saving = false) ∧
    (∀ persist : Except Thrown Unit,
      (handleSave recipe steps st persist).enteredSaving = true →
      (handleSave recipe steps st persist).state.saving = false) ∧
    (classifyError "IMAGEN_INVALIDA" = .IMAGE_INVALID ∧
     classifyError "INGREDIENTE_INVALIDO" = .INGREDIENT_INVALID ∧
     classifyError "PASO_INVALIDO" = .STEP_INVALID ∧
     classifyError "ERROR_VALIDACION" = .VALIDATION_ERROR) ∧
    (∀ s : String, s ≠ "IMAGEN_INVALIDA" → s ≠ "INGREDIENTE_INVALIDO" →
      s ≠ "PASO_INVALIDO" → s ≠ "ERROR_VALIDACION" →
      classifyError s = .GENERAL_ERROR) ∧
    thrownMessage .nonError = "ERROR_GENERAL" := by
  refine ⟨?_, ?_, ⟨rfl, rfl, rfl, rfl⟩, ?_, rfl⟩
  · cases hedit : editCondition recipe <;>
      simp [handleSave, hing, hsteps, hedit]
  · intro persist hps
    cases hedit : editCondition recipe <;> cases persist <;>
      simp [handleSave, hing, hsteps, hedit]
  · intro s h1 h2 h3 h4
    simp [classifyError, h1, h2, h3, h4]

/-- Witness for C6: a persistence failure with identifier
`IMAGEN_INVALIDA` on a validated draft. -/
theorem claim_C6_error_classification_witness :
    (handleSave ingRecipe [{ text := some "mix" }] {}
      (Except.error (Thrown.error "IMAGEN_INVALIDA"))).call.isSome = true ∧
    (handleSave ingRecipe [{ text := some "mix" }] {}
      (Except.error (Thrown.error "IMAGEN_INVALIDA"))).state.modalType =
      some .ERROR ∧
    (handleSave ingRecipe [{ text := some "mix" }] {}
      (Except.error (Thrown.error "IMAGEN_INVALIDA"))).state.showErrorModal =
      true ∧
    (handleSave ingRecipe [{ text := some "mix" }] {}
      (Except.error (Thrown.error "IMAGEN_INVALIDA"))).state.errorType =
      thrownMessage (Thrown.error "IMAGEN_INVALIDA") ∧
    (handleSave ingRecipe [{ text := some "mix" }] {}
      (Except.error (Thrown.error "IMAGEN_INVALIDA"))).state.saving = false :=
  (claim_C6_error_classification ingRecipe [{ text := some "mix" }] {}
    (Thrown.error "IMAGEN_INVALIDA") (by decide) (by decide)).1

/-- Claim C9: a favorite-toggle press with no authenticated user never
calls the external mutator and requests the login prompt instead; with
an authenticated user the press delegates to the mutator, and an error
alert is raised only when the mutator reports failure together with a
message. -/
theorem claim_C9_favorite_toggle (user : Option User)
    (result : ToggleResult) :
    (userAuthenticated user = false →
      handleFavoritePress user result =
        { toggleCalled := false, loginPromptRequested := true,
          errorAlert := none }) ∧
    (userAuthenticated user = true →
      (handleFavoritePress user result).toggleCalled = true ∧
      (handleFavoritePress user result).loginPromptRequested = false ∧
      ∀ m : String, (handleFavoritePress user result).errorAlert = some m →
        result.success = false ∧ result.message = some m) := by
  constructor
  · intro h
    simp [handleFavoritePress, h]
  · intro h
    refine ⟨by simp [handleFavoritePress, h],
      by simp [handleFavoritePress, h], ?_⟩
    intro m hm
    simp only [handleFavoritePress, h, Bool.not_true, Bool.false_eq_true,
      if_false] at hm
    cases hmsg : result.message with
    | none =>
        rw [hmsg] at hm
        simp at hm
    | some msg =>
        rw [hmsg] at hm
        cases hcond : (!result.success && (msg != "")) with
        | false =>
            simp [hcond] at hm
        | true =>
            simp [hcond] at hm
            have hparts := (Bool.and_eq_true _ _).mp hcond
            constructor
            · have hns := hparts.1
              simp at hns
              exact hns
            · rw [hm]

/-- Witness for C9: an unauthenticated press is refused with a login
prompt, and an authenticated press reaches the mutator. -/
theorem claim_C9_favorite_toggle_witness :
    handleFavoritePress none { success := true } =
      { toggleCalled := false, loginPromptRequested := true,
        errorAlert := none } ∧
    (handleFavoritePress (some { id := some "u1" })
      { success := false, message := some "limit" }).toggleCalled = true :=
  ⟨(claim_C9_favorite_toggle none { success := true }).1 rfl,
   ((claim_C9_favorite_toggle (some { id := some "u1" })
      { success := false, message := some "limit" }).2 rfl).1⟩

end FlavorFeast
